import Mathlib

/-!
Shallow embedding of the reservation-system core (`src/models.py`,
`src/main.py`): validated entity types (Hotel, Customer, Reservation),
their dict-shaped wire records, the JSON load pipeline, and the
consistency operations (create/cancel reservation, update/delete hotel
and customer).  Python machine integers are modelled as `Int`, calendar
dates as explicit year/month/day triples, fallible construction as
`Except String`.
-/

/-- ASCII digit character for a value below ten. -/
def dig (k : Nat) : Char := Char.ofNat (48 + k)

/-- Numeric value of an ASCII digit character, `none` otherwise. -/
def digVal? (c : Char) : Option Nat :=
  if 48 ≤ c.toNat ∧ c.toNat ≤ 57 then some (c.toNat - 48) else none

/-- Decimal digits of `n`, most significant first (fuelled recursion). -/
def natDigitsAux : Nat → Nat → List Char
  | 0, _ => []
  | fuel + 1, n =>
    if n < 10 then [dig n]
    else natDigitsAux fuel (n / 10) ++ [dig (n % 10)]

/-- Decimal digits of `n`, most significant first. -/
def natDigits (n : Nat) : List Char := natDigitsAux (n + 1) n

/-- Value recomposed from a digit string (left fold, base ten). -/
def natVal (cs : List Char) : Nat :=
  cs.foldl (fun a c => a * 10 + (c.toNat - 48)) 0

/-- Split a character list on the dash separator, like a dash-anchored
format string does. -/
def splitDash : List Char → List (List Char)
  | [] => [[]]
  | c :: cs =>
    if c = '-' then [] :: splitDash cs
    else
      match splitDash cs with
      | [] => [[c]]
      | p :: ps => (c :: p) :: ps

/-- Read a four-digit year field (the `%Y` directive). -/
def readYear : List Char → Option Nat
  | [a, b, c, d] => do
    let va ← digVal? a
    let vb ← digVal? b
    let vc ← digVal? c
    let vd ← digVal? d
    pure (((va * 10 + vb) * 10 + vc) * 10 + vd)
  | _ => none

/-- Read a one- or two-digit month/day field (`%m` / `%d`). -/
def readMD : List Char → Option Nat
  | [a] => digVal? a
  | [a, b] => do
    let va ← digVal? a
    let vb ← digVal? b
    pure (va * 10 + vb)
  | _ => none

/-- A calendar date as stored by the Python `datetime.date` type. -/
structure PyDate where
  year : Nat
  month : Nat
  day : Nat
deriving DecidableEq, Repr

/-- Gregorian leap-year test. -/
def isLeap (y : Nat) : Bool :=
  y % 4 = 0 && (y % 100 ≠ 0 || y % 400 = 0)

/-- Number of days in a month of a given year. -/
def daysInMonth (y m : Nat) : Nat :=
  if m = 2 then (if isLeap y then 29 else 28)
  else if m = 4 ∨ m = 6 ∨ m = 9 ∨ m = 11 then 30
  else 31

/-- The range constraints `datetime.date` enforces at construction. -/
def PyDate.valid (d : PyDate) : Bool :=
  1 ≤ d.year && d.year ≤ 9999 && 1 ≤ d.month && d.month ≤ 12 &&
    1 ≤ d.day && d.day ≤ daysInMonth d.year d.month

/-- Date comparison, lexicographic on (year, month, day). -/
def PyDate.lt (a b : PyDate) : Bool :=
  a.year < b.year ||
    (a.year = b.year &&
      (a.month < b.month || (a.month = b.month && a.day < b.day)))

/-- Two-digit zero-padded decimal rendering. -/
def pad2 (n : Nat) : List Char := [dig (n / 10 % 10), dig (n % 10)]

/-- Four-digit zero-padded decimal rendering. -/
def pad4 (n : Nat) : List Char :=
  [dig (n / 1000 % 10), dig (n / 100 % 10), dig (n / 10 % 10), dig (n % 10)]

/-- `date.isoformat()`: `YYYY-MM-DD`. -/
def isoformat (d : PyDate) : String :=
  ⟨pad4 d.year ++ '-' :: (pad2 d.month ++ '-' :: pad2 d.day)⟩

/-- `datetime.strptime(value, "%Y-%m-%d").date()`: four-digit year,
one- or two-digit month and day separated by dashes, full-string match,
then calendar validation. -/
def parseDate (s : String) : Option PyDate :=
  match splitDash s.data with
  | [ys, ms, ds] => do
    let y ← readYear ys
    let m ← readMD ms
    let d ← readMD ds
    let dt : PyDate := ⟨y, m, d⟩
    if dt.valid then some dt else none
  | _ => none

/-- Python whitespace characters recognised by `str.strip()`. -/
def isPySpace (c : Char) : Bool :=
  c = ' ' || c = '\t' || c = '\n' || c = '\x0d' || c = '\x0b' || c = '\x0c'

/-- `str.strip()`: drop leading and trailing whitespace. -/
def pyStrip (s : String) : String :=
  ⟨((s.data.dropWhile isPySpace).reverse.dropWhile isPySpace).reverse⟩

-- ------------------------------------------------------------------ --
--                         Entity types (models.py)                    --
-- ------------------------------------------------------------------ --

/-- `Hotel` dataclass fields. -/
structure Hotel where
  id : String
  name : String
  city : String
  total_rooms : Int
  available_rooms : Int
deriving DecidableEq, Repr

/-- `Hotel.__post_init__` validation wrapped around construction:
negative `total_rooms` or `available_rooms` outside `[0, total_rooms]`
raise `ValueError`. -/
def mkHotel (id name city : String) (total_rooms available_rooms : Int) :
    Except String Hotel :=
  if total_rooms < 0 then
    .error "total_rooms no puede ser negativo"
  else if ¬ (0 ≤ available_rooms ∧ available_rooms ≤ total_rooms) then
    .error "available_rooms debe estar entre 0 y total_rooms"
  else
    .ok ⟨id, name, city, total_rooms, available_rooms⟩

/-- `Customer` dataclass fields (no cross-field invariant). -/
structure Customer where
  id : String
  name : String
  email : String
  phone : String
deriving DecidableEq, Repr

/-- `Reservation` dataclass fields after date normalization. -/
structure Reservation where
  id : String
  hotel_id : String
  customer_id : String
  room_number : Int
  check_in : PyDate
  check_out : PyDate
  status : String
deriving DecidableEq, Repr

/-- A `check_in` / `check_out` argument: the dataclass accepts either a
date value or an ISO string (`date | str`). -/
inductive DateField where
  | str (s : String)
  | val (d : PyDate)
deriving DecidableEq, Repr

/-- The string branch of `Reservation.__post_init__` normalization:
strings go through `_parse_date`, which raises on invalid format. -/
def normDate : DateField → Except String PyDate
  | .str s =>
    match parseDate s with
    | some d => .ok d
    | none => .error ("Error de fecha inválida " ++ s)
  | .val d => .ok d

/-- `Reservation.__post_init__`: normalize both dates, then require
`check_in < check_out` strictly and `status` in the two-value enum. -/
def mkReservation (id hotel_id customer_id : String) (room_number : Int)
    (check_in check_out : DateField) (status : String) :
    Except String Reservation := do
  let ci ← normDate check_in
  let co ← normDate check_out
  if ¬ PyDate.lt ci co then
    .error "check_in debe ser anterior a check_out"
  else if ¬ (status = "ACTIVE" ∨ status = "CANCELLED") then
    .error "status debe ser ACTIVE o CANCELLED"
  else
    .ok ⟨id, hotel_id, customer_id, room_number, ci, co, status⟩

-- ------------------------------------------------------------------ --
--                 Wire records and (de)serialization                  --
-- ------------------------------------------------------------------ --

/-- Dict-shaped wire record for a hotel; `none` models an absent key
(`from_dict(**data)` raises `TypeError` on a missing field). -/
structure HotelRecord where
  id : Option String
  name : Option String
  city : Option String
  total_rooms : Option Int
  available_rooms : Option Int
deriving DecidableEq, Repr

/-- `Hotel.to_dict`: `asdict(self)`. -/
def Hotel.to_dict (h : Hotel) : HotelRecord :=
  ⟨some h.id, some h.name, some h.city, some h.total_rooms,
    some h.available_rooms⟩

/-- `Hotel.from_dict`: `cls(**data)` — missing fields raise, then
`__post_init__` validation runs. -/
def Hotel.from_dict (r : HotelRecord) : Except String Hotel :=
  match r.id, r.name, r.city, r.total_rooms, r.available_rooms with
  | some i, some n, some c, some t, some a => mkHotel i n c t a
  | _, _, _, _, _ => .error "TypeError: falta un campo requerido"

/-- Dict-shaped wire record for a customer. -/
structure CustomerRecord where
  id : Option String
  name : Option String
  email : Option String
  phone : Option String
deriving DecidableEq, Repr

/-- `Customer.to_dict`: `asdict(self)`. -/
def Customer.to_dict (c : Customer) : CustomerRecord :=
  ⟨some c.id, some c.name, some c.email, some c.phone⟩

/-- `Customer.from_dict`: `cls(**data)` — no validation beyond the
required fields being present. -/
def Customer.from_dict (r : CustomerRecord) : Except String Customer :=
  match r.id, r.name, r.email, r.phone with
  | some i, some n, some e, some p => .ok ⟨i, n, e, p⟩
  | _, _, _, _ => .error "TypeError: falta un campo requerido"

/-- Dict-shaped wire record for a reservation; dates are ISO strings on
the wire.  `status` has a dataclass default of `"ACTIVE"`, so an absent
status key does not raise. -/
structure ReservationRecord where
  id : Option String
  hotel_id : Option String
  customer_id : Option String
  room_number : Option Int
  check_in : Option String
  check_out : Option String
  status : Option String
deriving DecidableEq, Repr

/-- `Reservation.to_dict`: `asdict(self)` with the two date fields
replaced by their `isoformat()` strings. -/
def Reservation.to_dict (r : Reservation) : ReservationRecord :=
  ⟨some r.id, some r.hotel_id, some r.customer_id, some r.room_number,
    some (isoformat r.check_in), some (isoformat r.check_out),
    some r.status⟩

/-- `Reservation.from_dict`: `cls(**data)` — required fields must be
present (`status` defaults to `"ACTIVE"`), then `__post_init__`
normalizes and validates. -/
def Reservation.from_dict (r : ReservationRecord) :
    Except String Reservation :=
  match r.id, r.hotel_id, r.customer_id, r.room_number,
      r.check_in, r.check_out with
  | some i, some h, some c, some rn, some ci, some co =>
    mkReservation i h c rn (.str ci) (.str co) (r.status.getD "ACTIVE")
  | _, _, _, _, _, _ => .error "TypeError: falta un campo requerido"

-- ------------------------------------------------------------------ --
--                    Storage codec (_safe_load_json)                  --
-- ------------------------------------------------------------------ --

/-- JSON values as produced by `json.loads`. -/
inductive Json where
  | null
  | jbool (b : Bool)
  | jnum (n : Int)
  | jstr (s : String)
  | jarr (elems : List Json)
  | jobj (fields : List (String × Json))
deriving Repr

/-- Outcome of opening and reading the file at a path with
`open(path, "r", encoding="utf-8")` followed by `fobj.read()`:
the file may be missing (`FileNotFoundError`), the operating system may
fail the read (`OSError`), the bytes may not decode as UTF-8 — in which
case `read()` raises `UnicodeDecodeError`, a `ValueError` subclass — or
the read yields the decoded content string. -/
inductive FileRead where
  | notFound
  | ioError (msg : String)
  | decodeError (msg : String)
  | ok (content : String)
deriving Repr

/-- `_safe_load_json`: its except clauses catch `FileNotFoundError`,
`json.JSONDecodeError` and `OSError`, each degrading to an empty list
plus a diagnostic; a `UnicodeDecodeError` raised by `fobj.read()` on
non-UTF-8 bytes matches none of them and propagates to the caller,
modelled by the `Except.error` result.  `parse` abstracts `json.loads`
on the stripped content. -/
def safe_load_json (parse : String → Except String Json)
    (read : FileRead) : Except String (List Json × List String) :=
  match read with
  | .notFound =>
    .ok ([], ["Warning: no encontrado. Se creará al guardar."])
  | .ioError msg =>
    .ok ([], ["Error de E/S al leer: " ++ msg ++ ". Se asume lista vacía."])
  | .decodeError msg => .error msg
  | .ok raw =>
    let content := pyStrip raw
    if content = "" then
      .ok ([], ["Warning: vacío. Se asume lista vacía."])
    else
      match parse content with
      | .error e =>
        .ok ([],
          ["Error: JSON inválido: " ++ e ++ ". Se asume lista vacía."])
      | .ok (.jarr xs) => .ok (xs, [])
      | .ok _ =>
        .ok ([],
          ["Error: no contiene una lista JSON. Se asume lista vacía."])

-- ------------------------------------------------------------------ --
--                    Collection loads (load_all)                      --
-- ------------------------------------------------------------------ --

/-- `Hotel.load_all` record-decoding stage: a list comprehension, so
the first record whose construction raises aborts the whole load with
that error. -/
def Hotel.load_all (recs : List HotelRecord) : Except String (List Hotel) :=
  match recs with
  | [] => .ok []
  | rec :: rest => do
    let h ← Hotel.from_dict rec
    let hs ← Hotel.load_all rest
    pure (h :: hs)

/-- `Customer.load_all` record-decoding stage: same list-comprehension
shape as for hotels. -/
def Customer.load_all (recs : List CustomerRecord) :
    Except String (List Customer) :=
  match recs with
  | [] => .ok []
  | rec :: rest => do
    let c ← Customer.from_dict rec
    let cs ← Customer.load_all rest
    pure (c :: cs)

/-- Diagnostic printed when one reservation record is skipped. -/
def skipDiag (rec : ReservationRecord) (e : String) : String :=
  "Error al cargar reserva " ++ rec.id.getD "<sin id>" ++ ": " ++ e ++
    ". Se omite."

/-- `Reservation.load_all` record-decoding stage: each record that
raises `ValueError`/`TypeError` is skipped individually with a
diagnostic naming its id (or a placeholder); the rest still load. -/
def Reservation.load_all (recs : List ReservationRecord) :
    List Reservation × List String :=
  match recs with
  | [] => ([], [])
  | rec :: rest =>
    let prev := Reservation.load_all rest
    match Reservation.from_dict rec with
    | .ok r => (r :: prev.1, prev.2)
    | .error e => (prev.1, skipDiag rec e :: prev.2)

-- ------------------------------------------------------------------ --
--                     Lookup helpers (models.py)                      --
-- ------------------------------------------------------------------ --

/-- `find_hotel`: first hotel with matching id, or `None`. -/
def find_hotel (hotels : List Hotel) (hotel_id : String) : Option Hotel :=
  hotels.find? (fun h => h.id == hotel_id)

/-- `find_customer`: first customer with matching id, or `None`. -/
def find_customer (customers : List Customer) (customer_id : String) :
    Option Customer :=
  customers.find? (fun c => c.id == customer_id)

/-- `find_reservation`: first reservation with matching id, or `None`. -/
def find_reservation (reservations : List Reservation)
    (reservation_id : String) : Option Reservation :=
  reservations.find? (fun r => r.id == reservation_id)

-- ------------------------------------------------------------------ --
--                  Consistency operations (main.py)                   --
-- ------------------------------------------------------------------ --

/-- In-place mutation of the object `find_hotel` returned: rewrite the
first hotel whose id matches. -/
def adjustFirstHotel (hotels : List Hotel) (hid : String)
    (f : Hotel → Hotel) : List Hotel :=
  match hotels with
  | [] => []
  | h :: rest =>
    if h.id == hid then f h :: rest
    else h :: adjustFirstHotel rest hid f

/-- In-place mutation of the object `find_reservation` returned:
rewrite the status of the first reservation whose id matches. -/
def setStatusFirst (reservations : List Reservation) (rid st : String) :
    List Reservation :=
  match reservations with
  | [] => []
  | r :: rest =>
    if r.id == rid then { r with status := st } :: rest
    else r :: setStatusFirst rest rid st

/-- `f"R{100 + len(reservations) + 1:03d}"` — the padded width 3 is
always reached since the number is at least 101. -/
def freshReservationId (reservations : List Reservation) : String :=
  ⟨'R' :: natDigits (100 + reservations.length + 1)⟩

/-- What an operation persisted: `none` means the corresponding
`save_all` was never reached for that collection. -/
structure CreateReservationResult where
  savedReservations : Option (List Reservation)
  savedHotels : Option (List Hotel)
  message : String
deriving Repr

/-- `create_reservation` (main.py): check hotel exists, customer
exists, availability positive; construct, append, save reservations;
decrement the found hotel and save hotels.  A `ValueError` from
construction is caught: nothing is saved. -/
def create_reservation (hotels : List Hotel) (customers : List Customer)
    (reservations : List Reservation) (hotel_id customer_id : String)
    (room : Int) (check_in check_out : String) : CreateReservationResult :=
  match find_hotel hotels hotel_id with
  | none => ⟨none, none, "Error: hotel no existe."⟩
  | some htl =>
    match find_customer customers customer_id with
    | none => ⟨none, none, "Error: cliente no existe."⟩
    | some _ =>
      if htl.available_rooms ≤ 0 then
        ⟨none, none, "Error: hotel sin disponibilidad."⟩
      else
        match mkReservation (freshReservationId reservations) hotel_id
            customer_id room (.str check_in) (.str check_out) "ACTIVE" with
        | .error e => ⟨none, none, "Error al crear reserva: " ++ e⟩
        | .ok res =>
          ⟨some (reservations ++ [res]),
            some (adjustFirstHotel hotels hotel_id
              (fun h => { h with available_rooms := h.available_rooms - 1 })),
            "Reserva creada con ID: " ++ res.id⟩

/-- Saved collections and printed diagnostics of `cancel_reservation`. -/
structure CancelReservationResult where
  savedReservations : Option (List Reservation)
  savedHotels : Option (List Hotel)
  messages : List String
deriving Repr

/-- `cancel_reservation` (main.py): missing reservation or one already
CANCELLED saves nothing; otherwise the status is set to CANCELLED and
the reservations saved, then the owning hotel is incremented and saved
only when strictly below capacity, with a warning when at capacity or
when the hotel is missing. -/
def cancel_reservation (reservations : List Reservation)
    (hotels : List Hotel) (res_id : String) : CancelReservationResult :=
  match find_reservation reservations res_id with
  | none => ⟨none, none, ["No existe esa reserva."]⟩
  | some res =>
    if res.status == "CANCELLED" then
      ⟨none, none, ["La reserva ya estaba cancelada."]⟩
    else
      let reservations2 := setStatusFirst reservations res_id "CANCELLED"
      match find_hotel hotels res.hotel_id with
      | some htl =>
        if htl.available_rooms < htl.total_rooms then
          ⟨some reservations2,
            some (adjustFirstHotel hotels res.hotel_id
              (fun h => { h with available_rooms := h.available_rooms + 1 })),
            ["Reserva cancelada."]⟩
        else
          ⟨some reservations2, none,
            ["Aviso: disponibilidad ya estaba al máximo.",
              "Reserva cancelada."]⟩
      | none =>
        ⟨some reservations2, none,
          ["Aviso: hotel de la reserva no existe. No se ajustó stock.",
            "Reserva cancelada."]⟩

/-- The `total_rooms` prompt answer: left blank, a non-integer string,
or a parsed integer. -/
inductive TotalInput where
  | empty
  | invalid
  | value (n : Int)
deriving Repr

/-- Saved hotels collection and status line of `update_hotel`. -/
structure UpdateHotelResult where
  savedHotels : Option (List Hotel)
  message : String
deriving Repr

/-- `update_hotel` (main.py): blank name/city answers keep the old
values; a new total below the occupied count (or a non-integer answer)
returns before any save; otherwise occupied count is preserved and the
collection saved. -/
def update_hotel (hotels : List Hotel) (hid : String)
    (name city : String) (total : TotalInput) : UpdateHotelResult :=
  match find_hotel hotels hid with
  | none => ⟨none, "No existe ese hotel."⟩
  | some htl =>
    let htl1 := if name ≠ "" then { htl with name := name } else htl
    let htl2 := if city ≠ "" then { htl1 with city := city } else htl1
    match total with
    | .empty =>
      ⟨some (adjustFirstHotel hotels hid (fun _ => htl2)),
        "Hotel actualizado."⟩
    | .invalid => ⟨none, "Total inválido (debe ser entero)."⟩
    | .value n =>
      let occupied := htl.total_rooms - htl.available_rooms
      if n < occupied then
        ⟨none, "Error: el nuevo total no puede ser menor a ocupadas."⟩
      else
        ⟨some (adjustFirstHotel hotels hid (fun _ =>
            { htl2 with total_rooms := n, available_rooms := n - occupied })),
          "Hotel actualizado."⟩

/-- `delete_hotel` (main.py): refused while some ACTIVE reservation
references the hotel; on success every hotel with the id is filtered
out and the collection saved. -/
def delete_hotel (hotels : List Hotel) (reservations : List Reservation)
    (hid : String) : Option (List Hotel) × String :=
  match find_hotel hotels hid with
  | none => (none, "No existe ese hotel.")
  | some _ =>
    if reservations.any (fun r => r.hotel_id == hid && r.status == "ACTIVE")
    then
      (none, "No se puede eliminar: hay reservaciones ACTIVAS para este hotel.")
    else
      (some (hotels.filter (fun h => h.id != hid)), "Hotel eliminado.")

/-- `delete_customer` (main.py): same shape as `delete_hotel` over the
customer id. -/
def delete_customer (customers : List Customer)
    (reservations : List Reservation) (cid : String) :
    Option (List Customer) × String :=
  match find_customer customers cid with
  | none => (none, "No existe ese cliente.")
  | some _ =>
    if reservations.any
        (fun r => r.customer_id == cid && r.status == "ACTIVE") then
      (none, "No se puede eliminar: hay reservaciones ACTIVAS de este cliente.")
    else
      (some (customers.filter (fun c => c.id != cid)), "Cliente eliminado.")

-- ------------------------------------------------------------------ --
--                       Validity predicates                           --
-- ------------------------------------------------------------------ --

/-- A hotel value satisfying the construction invariants. -/
def validHotel (h : Hotel) : Prop :=
  0 ≤ h.total_rooms ∧ 0 ≤ h.available_rooms ∧
    h.available_rooms ≤ h.total_rooms

/-- A reservation value satisfying the construction invariants, with
calendar-valid dates (as every `datetime.date` instance is). -/
def validReservation (r : Reservation) : Prop :=
  r.check_in.valid = true ∧ r.check_out.valid = true ∧
    PyDate.lt r.check_in r.check_out = true ∧
    (r.status = "ACTIVE" ∨ r.status = "CANCELLED")

-- ------------------------------------------------------------------ --
--                          Digit lemmas                               --
-- ------------------------------------------------------------------ --

theorem dig_ne_dash {k : Nat} (h : k < 10) : dig k ≠ '-' := by
  interval_cases k <;> decide

@[simp]
theorem dig_mod_ne_dash (n : Nat) : (dig (n % 10) = '-') = False := by
  exact eq_false (dig_ne_dash (Nat.mod_lt _ (by omega)))

theorem digToNat {k : Nat} (h : k < 10) : (dig k).toNat = 48 + k := by
  interval_cases k <;> decide

theorem digVal_dig {k : Nat} (h : k < 10) : digVal? (dig k) = some k := by
  interval_cases k <;> decide

@[simp]
theorem digVal_dig_mod (n : Nat) : digVal? (dig (n % 10)) = some (n % 10) :=
  digVal_dig (Nat.mod_lt _ (by omega))

theorem natVal_append (a : List Char) (c : Char) :
    natVal (a ++ [c]) = natVal a * 10 + (c.toNat - 48) := by
  simp [natVal, List.foldl_append]

theorem natVal_natDigitsAux :
    ∀ fuel n, n ≤ fuel → natVal (natDigitsAux (fuel + 1) n) = n := by
  intro fuel
  induction fuel with
  | zero =>
    intro n hn
    interval_cases n
    decide
  | succ f ih =>
    intro n hn
    by_cases h10 : n < 10
    · have : natDigitsAux (f + 1 + 1) n = [dig n] := by
        simp [natDigitsAux, h10]
      rw [this]
      simp [natVal, digToNat h10]
    · have : natDigitsAux (f + 1 + 1) n =
          natDigitsAux (f + 1) (n / 10) ++ [dig (n % 10)] := by
        simp [natDigitsAux, h10]
      rw [this, natVal_append, ih (n / 10) (by omega),
        digToNat (Nat.mod_lt _ (by omega))]
      omega

theorem natVal_natDigits (n : Nat) : natVal (natDigits n) = n :=
  natVal_natDigitsAux n n le_rfl

theorem natDigits_inj {a b : Nat} (h : natDigits a = natDigits b) : a = b := by
  have := congrArg natVal h
  rwa [natVal_natDigits, natVal_natDigits] at this

-- ------------------------------------------------------------------ --
--                   Date round-trip lemmas                            --
-- ------------------------------------------------------------------ --

theorem daysInMonth_le (y m : Nat) : daysInMonth y m ≤ 31 := by
  unfold daysInMonth
  split
  · split <;> omega
  · split <;> omega

theorem splitDash_iso (y m d : Nat) :
    splitDash (pad4 y ++ '-' :: (pad2 m ++ '-' :: pad2 d)) =
      [pad4 y, pad2 m, pad2 d] := by
  simp [pad4, pad2, splitDash]

theorem readYear_pad4 {y : Nat} (h : y ≤ 9999) :
    readYear (pad4 y) = some y := by
  simp [readYear, pad4]
  omega

theorem readMD_pad2 {m : Nat} (h : m ≤ 99) : readMD (pad2 m) = some m := by
  simp [readMD, pad2]
  omega

theorem parseDate_isoformat {d : PyDate} (h : d.valid = true) :
    parseDate (isoformat d) = some d := by
  obtain ⟨y, m, dd⟩ := d
  simp only [PyDate.valid, Bool.and_eq_true, decide_eq_true_eq] at h
  obtain ⟨⟨⟨⟨⟨h1, h2⟩, h3⟩, h4⟩, h5⟩, h6⟩ := h
  have hdm : daysInMonth y m ≤ 31 := daysInMonth_le y m
  unfold parseDate isoformat
  rw [show (String.mk (pad4 y ++ '-' :: (pad2 m ++ '-' :: pad2 dd))).data =
      pad4 y ++ '-' :: (pad2 m ++ '-' :: pad2 dd) from rfl]
  rw [splitDash_iso]
  simp [readYear_pad4 h2, readMD_pad2 (by omega : m ≤ 99),
    readMD_pad2 (by omega : dd ≤ 99), PyDate.valid, h1, h2, h3, h4, h5, h6]

-- ------------------------------------------------------------------ --
--                First-match update lemmas                            --
-- ------------------------------------------------------------------ --

theorem find_hotel_adjustFirst {hotels : List Hotel} {hid : String}
    {htl : Hotel} (f : Hotel → Hotel) (hf : (f htl).id = htl.id)
    (h : find_hotel hotels hid = some htl) :
    find_hotel (adjustFirstHotel hotels hid f) hid = some (f htl) := by
  induction hotels with
  | nil => simp [find_hotel] at h
  | cons hd tl ih =>
    by_cases hc : (hd.id == hid) = true
    · simp only [find_hotel, List.find?, hc, Option.some.injEq] at h
      subst h
      simp [adjustFirstHotel, hc, find_hotel, List.find?, hf]
    · have hcb : (hd.id == hid) = false := by
        rwa [Bool.not_eq_true] at hc
      simp only [find_hotel, List.find?, hcb] at h
      have := ih h
      simp only [find_hotel] at this
      simp [adjustFirstHotel, hcb, find_hotel, List.find?, this]

theorem find_reservation_setStatusFirst {reservations : List Reservation}
    {rid : String} {res : Reservation} (st : String)
    (h : find_reservation reservations rid = some res) :
    find_reservation (setStatusFirst reservations rid st) rid =
      some { res with status := st } := by
  induction reservations with
  | nil => simp [find_reservation] at h
  | cons hd tl ih =>
    by_cases hc : (hd.id == rid) = true
    · simp only [find_reservation, List.find?, hc, Option.some.injEq] at h
      subst h
      simp [setStatusFirst, hc, find_reservation, List.find?]
    · have hcb : (hd.id == rid) = false := by
        rwa [Bool.not_eq_true] at hc
      simp only [find_reservation, List.find?, hcb] at h
      have := ih h
      simp only [find_reservation] at this
      simp [setStatusFirst, hcb, find_reservation, List.find?, this]

-- ------------------------------------------------------------------ --
--                Constructor inversion lemmas                         --
-- ------------------------------------------------------------------ --

theorem mkReservation_ok_fields {i hi ci : String} {rn : Int}
    {dci dco : DateField} {st : String} {r : Reservation}
    (h : mkReservation i hi ci rn dci dco st = .ok r) :
    r.id = i ∧ r.hotel_id = hi ∧ r.customer_id = ci ∧
      r.room_number = rn ∧ r.status = st := by
  unfold mkReservation at h
  cases hci : normDate dci with
  | error e => rw [hci] at h; simp [Bind.bind, Except.bind] at h
  | ok d1 =>
    cases hco : normDate dco with
    | error e => rw [hci, hco] at h; simp [Bind.bind, Except.bind] at h
    | ok d2 =>
      rw [hci, hco] at h
      simp only [Bind.bind, Except.bind] at h
      split at h
      · simp at h
      · split at h
        · simp at h
        · simp only [Except.ok.injEq] at h
          subst h
          exact ⟨rfl, rfl, rfl, rfl, rfl⟩

theorem mkReservation_val_ok_iff (i hi ci : String) (rn : Int)
    (d1 d2 : PyDate) (st : String) :
    (∃ r, mkReservation i hi ci rn (.val d1) (.val d2) st = .ok r) ↔
      (PyDate.lt d1 d2 = true ∧ (st = "ACTIVE" ∨ st = "CANCELLED")) := by
  unfold mkReservation normDate
  simp only [Bind.bind, Except.bind]
  constructor
  · rintro ⟨r, hr⟩
    split at hr
    · simp at hr
    · split at hr
      · simp at hr
      · constructor
        · by_contra hlt
          simp_all
        · by_contra hst
          simp_all
  · rintro ⟨hlt, hst⟩
    refine ⟨⟨i, hi, ci, rn, d1, d2, st⟩, ?_⟩
    rw [if_neg (by simp [hlt]), if_neg (by simp [hst])]

theorem mkHotel_ok_iff (i n c : String) (t a : Int) :
    (∃ h, mkHotel i n c t a = .ok h) ↔ (0 ≤ a ∧ a ≤ t) := by
  unfold mkHotel
  constructor
  · rintro ⟨h, hh⟩
    split at hh
    · simp at hh
    · split at hh
      · simp at hh
      · omega
  · rintro ⟨h1, h2⟩
    refine ⟨⟨i, n, c, t, a⟩, ?_⟩
    rw [if_neg (by omega), if_neg (by simp [h1, h2])]

-- ------------------------------------------------------------------ --
--                      load_all lemmas                                --
-- ------------------------------------------------------------------ --

theorem hotel_load_all_error {recs : List HotelRecord} {rec : HotelRecord}
    (hmem : rec ∈ recs) {e : String}
    (he : Hotel.from_dict rec = .error e) :
    ∃ e2, Hotel.load_all recs = .error e2 := by
  induction recs with
  | nil => cases hmem
  | cons hd tl ih =>
    cases hmem with
    | head =>
      exact ⟨e, by simp [Hotel.load_all, he, Bind.bind, Except.bind]⟩
    | tail _ hm =>
      cases hfd : Hotel.from_dict hd with
      | error e2 =>
        exact ⟨e2, by simp [Hotel.load_all, hfd, Bind.bind, Except.bind]⟩
      | ok h =>
        obtain ⟨e2, h2⟩ := ih hm
        exact ⟨e2, by simp [Hotel.load_all, hfd, h2, Bind.bind, Except.bind]⟩

theorem customer_load_all_error {recs : List CustomerRecord}
    {rec : CustomerRecord} (hmem : rec ∈ recs) {e : String}
    (he : Customer.from_dict rec = .error e) :
    ∃ e2, Customer.load_all recs = .error e2 := by
  induction recs with
  | nil => cases hmem
  | cons hd tl ih =>
    cases hmem with
    | head =>
      exact ⟨e, by simp [Customer.load_all, he, Bind.bind, Except.bind]⟩
    | tail _ hm =>
      cases hfd : Customer.from_dict hd with
      | error e2 =>
        exact ⟨e2, by simp [Customer.load_all, hfd, Bind.bind, Except.bind]⟩
      | ok c =>
        obtain ⟨e2, h2⟩ := ih hm
        exact ⟨e2, by
          simp [Customer.load_all, hfd, h2, Bind.bind, Except.bind]⟩

theorem Reservation.load_all_fst (recs : List ReservationRecord) :
    (Reservation.load_all recs).1 =
      recs.filterMap (fun rec => (Reservation.from_dict rec).toOption) := by
  induction recs with
  | nil => rfl
  | cons hd tl ih =>
    cases hfd : Reservation.from_dict hd <;>
      simp [Reservation.load_all, hfd, List.filterMap_cons, ih,
        Except.toOption]

theorem Reservation.load_all_diag {recs : List ReservationRecord}
    {rec : ReservationRecord} (hmem : rec ∈ recs) {e : String}
    (he : Reservation.from_dict rec = .error e) :
    skipDiag rec e ∈ (Reservation.load_all recs).2 := by
  induction recs with
  | nil => cases hmem
  | cons hd tl ih =>
    cases hmem with
    | head =>
      simp [Reservation.load_all, he]
    | tail _ hm =>
      cases hfd : Reservation.from_dict hd <;>
        simp [Reservation.load_all, hfd, ih hm]

-- ------------------------------------------------------------------ --
--                        Claim theorems                               --
-- ------------------------------------------------------------------ --

/-- Counterexample to C4: loading is not total for every path — a file
whose bytes are not valid UTF-8 makes `fobj.read()` raise
`UnicodeDecodeError`, which none of the except clauses
(`FileNotFoundError`, `json.JSONDecodeError`, `OSError`) match, so the
exception propagates to the caller instead of yielding an empty
sequence plus a diagnostic. -/
theorem C4_safe_load_counterexample :
    safe_load_json (fun _ => .error "unused")
      (.decodeError "utf-8 codec cant decode byte 0xff") =
      .error "utf-8 codec cant decode byte 0xff" := rfl

/-- C4 amended: loading is total on every decodable read outcome — a
missing file, an empty or whitespace-only file, syntactically invalid
content, a non-list top level, or an `OSError` read failure each yield
an empty sequence plus a diagnostic without raising, for every possible
parser behaviour; but a file whose bytes do not decode as UTF-8 raises
`UnicodeDecodeError` to the caller. -/
theorem C4_safe_load_amended (parse : String → Except String Json) :
    (safe_load_json parse .notFound =
      .ok ([], ["Warning: no encontrado. Se creará al guardar."])) ∧
    (∀ msg, safe_load_json parse (.ioError msg) =
      .ok ([],
        ["Error de E/S al leer: " ++ msg ++ ". Se asume lista vacía."])) ∧
    (∀ raw, pyStrip raw = "" → safe_load_json parse (.ok raw) =
      .ok ([], ["Warning: vacío. Se asume lista vacía."])) ∧
    (∀ raw e, parse (pyStrip raw) = .error e →
      safe_load_json parse (.ok raw) =
        .ok ([], ["Warning: vacío. Se asume lista vacía."]) ∨
      safe_load_json parse (.ok raw) =
        .ok ([],
          ["Error: JSON inválido: " ++ e ++ ". Se asume lista vacía."])) ∧
    (∀ raw j, parse (pyStrip raw) = .ok j → (∀ xs, j ≠ .jarr xs) →
      safe_load_json parse (.ok raw) =
        .ok ([], ["Warning: vacío. Se asume lista vacía."]) ∨
      safe_load_json parse (.ok raw) =
        .ok ([],
          ["Error: no contiene una lista JSON. Se asume lista vacía."])) ∧
    (∀ read, (∀ msg, read ≠ .decodeError msg) →
      ∃ out, safe_load_json parse read = .ok out) ∧
    (∀ msg, safe_load_json parse (.decodeError msg) = .error msg) := by
  refine ⟨rfl, fun msg => rfl, ?_, ?_, ?_, ?_, fun msg => rfl⟩
  · intro raw hempty
    simp [safe_load_json, hempty]
  · intro raw e hparse
    by_cases hempty : pyStrip raw = ""
    · exact Or.inl (by simp [safe_load_json, hempty])
    · exact Or.inr (by simp [safe_load_json, hempty, hparse])
  · intro raw j hparse hnot
    by_cases hempty : pyStrip raw = ""
    · exact Or.inl (by simp [safe_load_json, hempty])
    · refine Or.inr ?_
      simp only [safe_load_json, hempty, if_neg hempty, hparse]
      cases j with
      | jarr xs => exact absurd rfl (hnot xs)
      | null => rfl
      | jbool b => rfl
      | jnum n => rfl
      | jstr s => rfl
      | jobj fs => rfl
  · intro read hnd
    cases read with
    | notFound => exact ⟨_, rfl⟩
    | ioError m => exact ⟨_, rfl⟩
    | decodeError m => exact absurd rfl (hnd m)
    | ok raw =>
      by_cases hempty : pyStrip raw = ""
      · exact ⟨([], ["Warning: vacío. Se asume lista vacía."]),
          by simp [safe_load_json, hempty]⟩
      · cases hp : parse (pyStrip raw) with
        | error e =>
          exact ⟨([],
            ["Error: JSON inválido: " ++ e ++ ". Se asume lista vacía."]),
            by simp [safe_load_json, hempty, hp]⟩
        | ok j =>
          cases j with
          | jarr xs =>
            exact ⟨(xs, []), by simp [safe_load_json, hempty, hp]⟩
          | null =>
            exact ⟨([],
              ["Error: no contiene una lista JSON. Se asume lista vacía."]),
              by simp [safe_load_json, hempty, hp]⟩
          | jbool b =>
            exact ⟨([],
              ["Error: no contiene una lista JSON. Se asume lista vacía."]),
              by simp [safe_load_json, hempty, hp]⟩
          | jnum n =>
            exact ⟨([],
              ["Error: no contiene una lista JSON. Se asume lista vacía."]),
              by simp [safe_load_json, hempty, hp]⟩
          | jstr s =>
            exact ⟨([],
              ["Error: no contiene una lista JSON. Se asume lista vacía."]),
              by simp [safe_load_json, hempty, hp]⟩
          | jobj fs =>
            exact ⟨([],
              ["Error: no contiene una lista JSON. Se asume lista vacía."]),
              by simp [safe_load_json, hempty, hp]⟩

/-- Witness for the amended C4 at concrete inputs: a parser that always
fails on the non-empty content `x` produces the invalid-JSON diagnostic
without raising. -/
theorem C4_safe_load_amended_witness :
    safe_load_json (fun _ => .error "boom") (.ok " x ") =
      .ok ([], ["Error: JSON inválido: boom. Se asume lista vacía."]) := by
  have h := (C4_safe_load_amended (fun _ => .error "boom")).2.2.2.1 " x "
    "boom" rfl
  rcases h with h | h
  · have h2 : safe_load_json (fun _ => .error "boom") (.ok " x ") =
        .ok ([], ["Error: JSON inválido: boom. Se asume lista vacía."]) := rfl
    have h3 := h.symm.trans h2
    simp only [Except.ok.injEq, Prod.mk.injEq, List.cons.injEq] at h3
    exact absurd h3.2.1 (by decide)
  · exact h

/-- C5: construction is validating and fails exactly on invariant
violation: a Hotel constructs successfully iff `total_rooms ≥ 0` and
`0 ≤ available_rooms ≤ total_rooms`; a Reservation (given date values)
constructs successfully iff `check_in < check_out` strictly and the
status is ACTIVE or CANCELLED. -/
theorem C5_construction_validates :
    (∀ (i n c : String) (t a : Int),
      (∃ h, mkHotel i n c t a = .ok h) ↔ (0 ≤ t ∧ 0 ≤ a ∧ a ≤ t)) ∧
    (∀ (i hi ci : String) (rn : Int) (d1 d2 : PyDate) (st : String),
      (∃ r, mkReservation i hi ci rn (.val d1) (.val d2) st = .ok r) ↔
        (PyDate.lt d1 d2 = true ∧ (st = "ACTIVE" ∨ st = "CANCELLED"))) := by
  constructor
  · intro i n c t a
    rw [mkHotel_ok_iff]
    omega
  · intro i hi ci rn d1 d2 st
    exact mkReservation_val_ok_iff i hi ci rn d1 d2 st

/-- Witness for C5 at concrete inputs: a hotel with capacity 2 and one
available room constructs; a reservation over an inverted date pair
does not. -/
theorem C5_construction_validates_witness :
    (∃ h, mkHotel "H001" "T" "C" 2 1 = .ok h) ∧
    ¬ ∃ r, mkReservation "R1" "H001" "C001" 1 (.val ⟨2024, 1, 5⟩)
      (.val ⟨2024, 1, 2⟩) "ACTIVE" = .ok r := by
  constructor
  · exact (C5_construction_validates.1 "H001" "T" "C" 2 1).mpr
      (by norm_num)
  · intro hr
    have := (C5_construction_validates.2 "R1" "H001" "C001" 1
      ⟨2024, 1, 5⟩ ⟨2024, 1, 2⟩ "ACTIVE").mp hr
    exact absurd this.1 (by decide)

/-- C6: serialization round-trip is exact for all three entity types:
`from_dict (to_dict e) = ok e` for every valid entity, with the
reservation date fields surviving ISO-8601 re-parsing exactly. -/
theorem C6_roundtrip :
    (∀ h : Hotel, validHotel h →
      Hotel.from_dict (Hotel.to_dict h) = .ok h) ∧
    (∀ c : Customer, Customer.from_dict (Customer.to_dict c) = .ok c) ∧
    (∀ r : Reservation, validReservation r →
      Reservation.from_dict (Reservation.to_dict r) = .ok r) := by
  refine ⟨?_, ?_, ?_⟩
  · rintro ⟨i, n, c, t, a⟩ ⟨h1, h2, h3⟩
    have h1' : (0 : Int) ≤ t := h1
    have h2' : (0 : Int) ≤ a := h2
    have h3' : a ≤ t := h3
    simp only [Hotel.to_dict, Hotel.from_dict, mkHotel]
    rw [if_neg (by omega), if_neg (not_not_intro ⟨h2', h3'⟩)]
  · rintro ⟨i, n, e, p⟩
    rfl
  · rintro ⟨i, hi, ci, rn, d1, d2, st⟩ ⟨h1, h2, h3, h4⟩
    simp only [Reservation.to_dict, Reservation.from_dict, Option.getD_some]
    simp only [mkReservation, normDate, parseDate_isoformat h1,
      parseDate_isoformat h2, Bind.bind, Except.bind]
    rw [if_neg (by simp [h3]), if_neg (by simp; tauto)]

/-- Witness for C6 at concrete valid entities of all three types. -/
theorem C6_roundtrip_witness :
    Hotel.from_dict (Hotel.to_dict ⟨"H001", "T", "C", 3, 2⟩) =
      .ok ⟨"H001", "T", "C", 3, 2⟩ ∧
    Customer.from_dict (Customer.to_dict ⟨"C001", "N", "e", "p"⟩) =
      .ok ⟨"C001", "N", "e", "p"⟩ ∧
    Reservation.from_dict (Reservation.to_dict
        ⟨"R101", "H001", "C001", 7, ⟨2024, 1, 1⟩, ⟨2024, 1, 2⟩, "ACTIVE"⟩) =
      .ok ⟨"R101", "H001", "C001", 7, ⟨2024, 1, 1⟩, ⟨2024, 1, 2⟩, "ACTIVE"⟩ := by
  refine ⟨?_, ?_, ?_⟩
  · exact C6_roundtrip.1 ⟨"H001", "T", "C", 3, 2⟩
      (by refine ⟨by norm_num, by norm_num, by norm_num⟩)
  · exact C6_roundtrip.2.1 ⟨"C001", "N", "e", "p"⟩
  · exact C6_roundtrip.2.2
      ⟨"R101", "H001", "C001", 7, ⟨2024, 1, 1⟩, ⟨2024, 1, 2⟩, "ACTIVE"⟩
      ⟨by decide, by decide, by decide, Or.inl rfl⟩

/-- C1: create reservation — when the hotel exists, the customer
exists, availability is positive and the reservation constructs, the
new ACTIVE reservation carrying the fresh scheme id is appended and the
reservations collection saved, and the hotel collection is saved with
that hotel's `available_rooms` decremented by exactly one; when any of
the three preconditions fails, neither collection is saved and the
specific reason is reported. -/
theorem C1_create_reservation (hotels : List Hotel)
    (customers : List Customer) (reservations : List Reservation)
    (hid cid : String) (room : Int) (ci co : String) :
    (find_hotel hotels hid = none →
      create_reservation hotels customers reservations hid cid room ci co =
        ⟨none, none, "Error: hotel no existe."⟩) ∧
    (∀ htl, find_hotel hotels hid = some htl →
      find_customer customers cid = none →
      create_reservation hotels customers reservations hid cid room ci co =
        ⟨none, none, "Error: cliente no existe."⟩) ∧
    (∀ htl cust, find_hotel hotels hid = some htl →
      find_customer customers cid = some cust →
      htl.available_rooms ≤ 0 →
      create_reservation hotels customers reservations hid cid room ci co =
        ⟨none, none, "Error: hotel sin disponibilidad."⟩) ∧
    (∀ htl cust res, find_hotel hotels hid = some htl →
      find_customer customers cid = some cust →
      0 < htl.available_rooms →
      mkReservation (freshReservationId reservations) hid cid room
        (.str ci) (.str co) "ACTIVE" = .ok res →
      (create_reservation hotels customers reservations hid cid room
          ci co).savedReservations = some (reservations ++ [res]) ∧
      res.status = "ACTIVE" ∧
      res.id = freshReservationId reservations ∧
      ∃ hotels2,
        (create_reservation hotels customers reservations hid cid room
          ci co).savedHotels = some hotels2 ∧
        find_hotel hotels2 hid =
          some { htl with available_rooms := htl.available_rooms - 1 }) := by
  refine ⟨?_, ?_, ?_, ?_⟩
  · intro hnone
    simp [create_reservation, hnone]
  · intro htl hfind hcust
    simp [create_reservation, hfind, hcust]
  · intro htl cust hfind hcust havail
    simp [create_reservation, hfind, hcust, if_pos havail]
  · intro htl cust res hfind hcust havail hmk
    obtain ⟨hrid, _, _, _, hrst⟩ := mkReservation_ok_fields hmk
    have hna : ¬ htl.available_rooms ≤ 0 := by omega
    have hres : create_reservation hotels customers reservations hid cid
        room ci co =
        ⟨some (reservations ++ [res]),
          some (adjustFirstHotel hotels hid
            (fun h => { h with available_rooms := h.available_rooms - 1 })),
          "Reserva creada con ID: " ++ res.id⟩ := by
      simp [create_reservation, hfind, hcust, hna, hmk]
    refine ⟨by rw [hres], hrst, hrid, ?_⟩
    refine ⟨adjustFirstHotel hotels hid
      (fun h => { h with available_rooms := h.available_rooms - 1 }),
      by rw [hres], ?_⟩
    exact find_hotel_adjustFirst _ rfl hfind

/-- Witness for C1 at a concrete state: hotel H001 with two available
rooms, customer C001, empty reservations collection; the created
reservation gets the fresh id R101 and the saved hotel list carries one
available room. -/
theorem C1_create_reservation_witness :
    (create_reservation [⟨"H001", "T", "C", 3, 2⟩] [⟨"C001", "N", "e", "p"⟩]
        [] "H001" "C001" 7 "2024-01-01" "2024-01-02").savedReservations =
      some [⟨"R101", "H001", "C001", 7, ⟨2024, 1, 1⟩, ⟨2024, 1, 2⟩,
        "ACTIVE"⟩] ∧
    ∃ hotels2,
      (create_reservation [⟨"H001", "T", "C", 3, 2⟩]
          [⟨"C001", "N", "e", "p"⟩] [] "H001" "C001" 7 "2024-01-01"
          "2024-01-02").savedHotels = some hotels2 ∧
      find_hotel hotels2 "H001" = some ⟨"H001", "T", "C", 3, 1⟩ := by
  have h := (C1_create_reservation [⟨"H001", "T", "C", 3, 2⟩]
    [⟨"C001", "N", "e", "p"⟩] [] "H001" "C001" 7 "2024-01-01"
    "2024-01-02").2.2.2 ⟨"H001", "T", "C", 3, 2⟩ ⟨"C001", "N", "e", "p"⟩
    ⟨"R101", "H001", "C001", 7, ⟨2024, 1, 1⟩, ⟨2024, 1, 2⟩, "ACTIVE"⟩
    rfl rfl (by norm_num) rfl
  obtain ⟨hsave, _, _, hotels2, hhot, hfind⟩ := h
  exact ⟨by simpa using hsave, hotels2, hhot, by simpa using hfind⟩

/-- C10 (implicit): when the three preconditions pass but constructing
the Reservation itself fails (for example an inverted date pair or a
malformed date string), the error is reported and neither the
reservations nor the hotels collection is saved. -/
theorem C10_create_reservation_construction_failure (hotels : List Hotel)
    (customers : List Customer) (reservations : List Reservation)
    (hid cid : String) (room : Int) (ci co : String) (htl : Hotel)
    (cust : Customer) (e : String)
    (hfind : find_hotel hotels hid = some htl)
    (hcust : find_customer customers cid = some cust)
    (havail : 0 < htl.available_rooms)
    (hmk : mkReservation (freshReservationId reservations) hid cid room
      (.str ci) (.str co) "ACTIVE" = .error e) :
    create_reservation hotels customers reservations hid cid room ci co =
      ⟨none, none, "Error al crear reserva: " ++ e⟩ := by
  have hna : ¬ htl.available_rooms ≤ 0 := by omega
  simp [create_reservation, hfind, hcust, hna, hmk]

/-- Witness for C10 at a concrete state: inverted dates, so the
construction raises; nothing is saved. -/
theorem C10_create_reservation_construction_failure_witness :
    create_reservation [⟨"H001", "T", "C", 3, 2⟩] [⟨"C001", "N", "e", "p"⟩]
        [] "H001" "C001" 7 "2024-01-05" "2024-01-02" =
      ⟨none, none,
        "Error al crear reserva: check_in debe ser anterior a check_out"⟩ :=
  C10_create_reservation_construction_failure [⟨"H001", "T", "C", 3, 2⟩]
    [⟨"C001", "N", "e", "p"⟩] [] "H001" "C001" 7 "2024-01-05" "2024-01-02"
    ⟨"H001", "T", "C", 3, 2⟩ ⟨"C001", "N", "e", "p"⟩
    "check_in debe ser anterior a check_out" rfl rfl (by norm_num) rfl

/-- C2: cancel reservation — a missing reservation changes nothing; an
already-CANCELLED one is a saved-nothing no-op reporting "already
cancelled"; otherwise the status is set to CANCELLED and the
reservations collection saved, the owning hotel is incremented by one
and saved only when strictly below `total_rooms` (at capacity nothing
is incremented and a warning reported), and a missing owning hotel
still leaves the reservation cancelled with a stock warning. -/
theorem C2_cancel_reservation (reservations : List Reservation)
    (hotels : List Hotel) (rid : String) :
    (find_reservation reservations rid = none →
      cancel_reservation reservations hotels rid =
        ⟨none, none, ["No existe esa reserva."]⟩) ∧
    (∀ res, find_reservation reservations rid = some res →
      res.status = "CANCELLED" →
      cancel_reservation reservations hotels rid =
        ⟨none, none, ["La reserva ya estaba cancelada."]⟩) ∧
    (∀ res htl, find_reservation reservations rid = some res →
      res.status ≠ "CANCELLED" →
      find_hotel hotels res.hotel_id = some htl →
      htl.available_rooms < htl.total_rooms →
      (cancel_reservation reservations hotels rid).savedReservations =
          some (setStatusFirst reservations rid "CANCELLED") ∧
      find_reservation (setStatusFirst reservations rid "CANCELLED") rid =
          some { res with status := "CANCELLED" } ∧
      ∃ hotels2,
        (cancel_reservation reservations hotels rid).savedHotels =
          some hotels2 ∧
        find_hotel hotels2 res.hotel_id =
          some { htl with available_rooms := htl.available_rooms + 1 }) ∧
    (∀ res htl, find_reservation reservations rid = some res →
      res.status ≠ "CANCELLED" →
      find_hotel hotels res.hotel_id = some htl →
      htl.total_rooms ≤ htl.available_rooms →
      cancel_reservation reservations hotels rid =
        ⟨some (setStatusFirst reservations rid "CANCELLED"), none,
          ["Aviso: disponibilidad ya estaba al máximo.",
            "Reserva cancelada."]⟩) ∧
    (∀ res, find_reservation reservations rid = some res →
      res.status ≠ "CANCELLED" →
      find_hotel hotels res.hotel_id = none →
      cancel_reservation reservations hotels rid =
        ⟨some (setStatusFirst reservations rid "CANCELLED"), none,
          ["Aviso: hotel de la reserva no existe. No se ajustó stock.",
            "Reserva cancelada."]⟩) := by
  refine ⟨?_, ?_, ?_, ?_, ?_⟩
  · intro hnone
    simp [cancel_reservation, hnone]
  · intro res hfind hst
    simp [cancel_reservation, hfind, hst]
  · intro res htl hfind hst hhot hlt
    have hres : cancel_reservation reservations hotels rid =
        ⟨some (setStatusFirst reservations rid "CANCELLED"),
          some (adjustFirstHotel hotels res.hotel_id
            (fun h => { h with available_rooms := h.available_rooms + 1 })),
          ["Reserva cancelada."]⟩ := by
      simp [cancel_reservation, hfind, hst, hhot, hlt]
    refine ⟨by rw [hres], find_reservation_setStatusFirst _ hfind, ?_⟩
    exact ⟨adjustFirstHotel hotels res.hotel_id
      (fun h => { h with available_rooms := h.available_rooms + 1 }),
      by rw [hres], find_hotel_adjustFirst _ rfl hhot⟩
  · intro res htl hfind hst hhot hge
    have hnl : ¬ htl.available_rooms < htl.total_rooms := by omega
    simp [cancel_reservation, hfind, hst, hhot, hnl]
  · intro res hfind hst hhot
    simp [cancel_reservation, hfind, hst, hhot]

/-- Witness for C2 at a concrete state: cancelling the ACTIVE
reservation R101 of hotel H001 (one of three rooms free) saves the
CANCELLED reservation and restores the hotel to two free rooms. -/
theorem C2_cancel_reservation_witness :
    (cancel_reservation
        [⟨"R101", "H001", "C001", 7, ⟨2024, 1, 1⟩, ⟨2024, 1, 2⟩, "ACTIVE"⟩]
        [⟨"H001", "T", "C", 3, 1⟩] "R101").savedReservations =
      some [⟨"R101", "H001", "C001", 7, ⟨2024, 1, 1⟩, ⟨2024, 1, 2⟩,
        "CANCELLED"⟩] ∧
    ∃ hotels2,
      (cancel_reservation
          [⟨"R101", "H001", "C001", 7, ⟨2024, 1, 1⟩, ⟨2024, 1, 2⟩,
            "ACTIVE"⟩]
          [⟨"H001", "T", "C", 3, 1⟩] "R101").savedHotels = some hotels2 ∧
      find_hotel hotels2 "H001" = some ⟨"H001", "T", "C", 3, 2⟩ := by
  have h := (C2_cancel_reservation
    [⟨"R101", "H001", "C001", 7, ⟨2024, 1, 1⟩, ⟨2024, 1, 2⟩, "ACTIVE"⟩]
    [⟨"H001", "T", "C", 3, 1⟩] "R101").2.2.1
    ⟨"R101", "H001", "C001", 7, ⟨2024, 1, 1⟩, ⟨2024, 1, 2⟩, "ACTIVE"⟩
    ⟨"H001", "T", "C", 3, 1⟩ rfl (by decide) rfl (by norm_num)
  obtain ⟨hsave, _, hotels2, hhot, hfind⟩ := h
  exact ⟨by simpa using hsave, hotels2, hhot, by simpa using hfind⟩

/-- C7: resize hotel capacity — a new total strictly below the occupied
count is rejected with nothing persisted; an accepted resize preserves
the occupied count (`new_available = new_total - occupied`) and saves
the collection. -/
theorem C7_update_hotel (hotels : List Hotel) (hid name city : String)
    (htl : Hotel) (hfind : find_hotel hotels hid = some htl) :
    (∀ n, n < htl.total_rooms - htl.available_rooms →
      update_hotel hotels hid name city (.value n) =
        ⟨none, "Error: el nuevo total no puede ser menor a ocupadas."⟩) ∧
    (∀ n, htl.total_rooms - htl.available_rooms ≤ n →
      ∃ hotels2 h2,
        (update_hotel hotels hid name city (.value n)).savedHotels =
          some hotels2 ∧
        find_hotel hotels2 hid = some h2 ∧
        h2.total_rooms = n ∧
        h2.available_rooms = n - (htl.total_rooms - htl.available_rooms)) := by
  constructor
  · intro n hlt
    simp [update_hotel, hfind, hlt]
  · intro n hge
    have hnl : ¬ n < htl.total_rooms - htl.available_rooms := by omega
    set htl1 := if name ≠ "" then { htl with name := name } else htl with h1
    set htl2 := if city ≠ "" then { htl1 with city := city } else htl1 with h2
    have hid2 : htl2.id = htl.id := by
      rw [h2, h1]
      split <;> split <;> rfl
    have hres : update_hotel hotels hid name city (.value n) =
        ⟨some (adjustFirstHotel hotels hid (fun _ =>
          { htl2 with
            total_rooms := n
            available_rooms := n - (htl.total_rooms - htl.available_rooms) })),
          "Hotel actualizado."⟩ := by
      simp only [update_hotel, hfind, hnl, if_false, ← h1, ← h2]
    refine ⟨adjustFirstHotel hotels hid (fun _ =>
      { htl2 with
        total_rooms := n
        available_rooms := n - (htl.total_rooms - htl.available_rooms) }),
      { htl2 with
        total_rooms := n
        available_rooms := n - (htl.total_rooms - htl.available_rooms) },
      by rw [hres], ?_, rfl, rfl⟩
    exact find_hotel_adjustFirst _ hid2 hfind

/-- Witness for C7 at a concrete state: resizing H001 (3 total, 1
available, hence 2 occupied) down to 1 is rejected; resizing to 5
preserves the 2 occupied rooms, leaving 3 available. -/
theorem C7_update_hotel_witness :
    update_hotel [⟨"H001", "T", "C", 3, 1⟩] "H001" "" "" (.value 1) =
      ⟨none, "Error: el nuevo total no puede ser menor a ocupadas."⟩ ∧
    ∃ hotels2 h2,
      (update_hotel [⟨"H001", "T", "C", 3, 1⟩] "H001" "" ""
        (.value 5)).savedHotels = some hotels2 ∧
      find_hotel hotels2 "H001" = some h2 ∧
      h2.total_rooms = 5 ∧ h2.available_rooms = 3 := by
  have h := C7_update_hotel [⟨"H001", "T", "C", 3, 1⟩] "H001" "" ""
    ⟨"H001", "T", "C", 3, 1⟩ rfl
  refine ⟨h.1 1 (by norm_num), ?_⟩
  obtain ⟨hotels2, h2, hsave, hfind, htot, havail⟩ := h.2 5 (by norm_num)
  exact ⟨hotels2, h2, hsave, hfind, htot, by rw [havail]; norm_num⟩

/-- C8: deleting a hotel (or customer) is refused with nothing saved
whenever some reservation referencing its id has status ACTIVE;
CANCELLED reservations do not block deletion, and on success the entity
is removed from the saved collection. -/
theorem C8_delete_blocked_by_active (hotels : List Hotel)
    (customers : List Customer) (reservations : List Reservation)
    (hid cid : String) :
    ((∃ r ∈ reservations, r.hotel_id = hid ∧ r.status = "ACTIVE") →
      (delete_hotel hotels reservations hid).1 = none) ∧
    (∀ htl, find_hotel hotels hid = some htl →
      (∀ r ∈ reservations, r.hotel_id = hid → r.status ≠ "ACTIVE") →
      delete_hotel hotels reservations hid =
        (some (hotels.filter (fun h => h.id != hid)), "Hotel eliminado.")) ∧
    ((∃ r ∈ reservations, r.customer_id = cid ∧ r.status = "ACTIVE") →
      (delete_customer customers reservations cid).1 = none) ∧
    (∀ cust, find_customer customers cid = some cust →
      (∀ r ∈ reservations, r.customer_id = cid → r.status ≠ "ACTIVE") →
      delete_customer customers reservations cid =
        (some (customers.filter (fun c => c.id != cid)),
          "Cliente eliminado.")) := by
  refine ⟨?_, ?_, ?_, ?_⟩
  · rintro ⟨r, hr, hhid, hst⟩
    unfold delete_hotel
    cases hfind : find_hotel hotels hid with
    | none => rfl
    | some htl =>
      have hany : reservations.any
          (fun r => r.hotel_id == hid && r.status == "ACTIVE") = true := by
        simp only [List.any_eq_true, Bool.and_eq_true, beq_iff_eq]
        exact ⟨r, hr, hhid, hst⟩
      simp [hany]
  · intro htl hfind hno
    have hany : reservations.any
        (fun r => r.hotel_id == hid && r.status == "ACTIVE") = false := by
      simp only [List.any_eq_false, Bool.and_eq_true, beq_iff_eq, not_and]
      exact fun r hr => hno r hr
    simp [delete_hotel, hfind, hany]
  · rintro ⟨r, hr, hcid, hst⟩
    unfold delete_customer
    cases hfind : find_customer customers cid with
    | none => rfl
    | some cust =>
      have hany : reservations.any
          (fun r => r.customer_id == cid && r.status == "ACTIVE") = true := by
        simp only [List.any_eq_true, Bool.and_eq_true, beq_iff_eq]
        exact ⟨r, hr, hcid, hst⟩
      simp [hany]
  · intro cust hfind hno
    have hany : reservations.any
        (fun r => r.customer_id == cid && r.status == "ACTIVE") = false := by
      simp only [List.any_eq_false, Bool.and_eq_true, beq_iff_eq, not_and]
      exact fun r hr => hno r hr
    simp [delete_customer, hfind, hany]

/-- Witness for C8 at a concrete state: an ACTIVE reservation on H001
blocks its deletion; once it is CANCELLED the hotel is removed and the
collection saved. -/
theorem C8_delete_blocked_by_active_witness :
    (delete_hotel [⟨"H001", "T", "C", 3, 2⟩]
      [⟨"R101", "H001", "C001", 7, ⟨2024, 1, 1⟩, ⟨2024, 1, 2⟩, "ACTIVE"⟩]
      "H001").1 = none ∧
    delete_hotel [⟨"H001", "T", "C", 3, 2⟩]
      [⟨"R101", "H001", "C001", 7, ⟨2024, 1, 1⟩, ⟨2024, 1, 2⟩, "CANCELLED"⟩]
      "H001" = (some [], "Hotel eliminado.") := by
  have h1 := (C8_delete_blocked_by_active [⟨"H001", "T", "C", 3, 2⟩] []
    [⟨"R101", "H001", "C001", 7, ⟨2024, 1, 1⟩, ⟨2024, 1, 2⟩, "ACTIVE"⟩]
    "H001" "C001").1
  have h2 := (C8_delete_blocked_by_active [⟨"H001", "T", "C", 3, 2⟩] []
    [⟨"R101", "H001", "C001", 7, ⟨2024, 1, 1⟩, ⟨2024, 1, 2⟩, "CANCELLED"⟩]
    "H001" "C001").2.1 ⟨"H001", "T", "C", 3, 2⟩ rfl
    (by intro r hr hhid; simp at hr; rw [hr]; decide)
  refine ⟨h1 ?_, by simpa using h2⟩
  exact ⟨⟨"R101", "H001", "C001", 7, ⟨2024, 1, 1⟩, ⟨2024, 1, 2⟩, "ACTIVE"⟩,
    by simp, rfl, rfl⟩

/-- A hotel record violating the capacity bound (5 available of 2). -/
def badHotelRecord : HotelRecord :=
  ⟨some "H001", some "Bad", some "X", some 2, some 5⟩

/-- A perfectly valid hotel record stored after the bad one. -/
def goodHotelRecord : HotelRecord :=
  ⟨some "H002", some "Good", some "X", some 2, some 1⟩

/-- A reservation record with an inverted date pair. -/
def badResRecord : ReservationRecord :=
  ⟨some "R900", some "H001", some "C001", some 1, some "2024-01-05",
    some "2024-01-02", some "ACTIVE"⟩

/-- A valid reservation record stored after the bad one. -/
def goodResRecord : ReservationRecord :=
  ⟨some "R901", some "H001", some "C001", some 1, some "2024-01-01",
    some "2024-01-02", some "ACTIVE"⟩

/-- Counterexample to C3: a hotels collection holding one invalid and
one valid record loses the valid record too — `Hotel.load_all` aborts
with the first validation error instead of skipping it, because only
`Reservation.load_all` has the per-record try/except. -/
theorem C3_load_all_skip_counterexample :
    Hotel.from_dict goodHotelRecord = .ok ⟨"H002", "Good", "X", 2, 1⟩ ∧
    Hotel.load_all [badHotelRecord, goodHotelRecord] =
      .error "available_rooms debe estar entre 0 y total_rooms" := by
  constructor
  · rfl
  · rfl

/-- C3 amended: only `Reservation.load_all` applies the per-record
skip-on-error policy — the surviving list is exactly the valid records
and each failing record yields a diagnostic naming its id (or the
placeholder) — while `Hotel.load_all` and `Customer.load_all` propagate
the first record failure, losing the whole collection. -/
theorem C3_load_all_skip_amended :
    (∀ recs : List ReservationRecord,
      (Reservation.load_all recs).1 =
        recs.filterMap (fun rec => (Reservation.from_dict rec).toOption)) ∧
    (∀ (recs : List ReservationRecord) rec e, rec ∈ recs →
      Reservation.from_dict rec = .error e →
      skipDiag rec e ∈ (Reservation.load_all recs).2) ∧
    (∀ (recs : List HotelRecord) rec e, rec ∈ recs →
      Hotel.from_dict rec = .error e →
      ∃ e2, Hotel.load_all recs = .error e2) ∧
    (∀ (recs : List CustomerRecord) rec e, rec ∈ recs →
      Customer.from_dict rec = .error e →
      ∃ e2, Customer.load_all recs = .error e2) :=
  ⟨Reservation.load_all_fst,
    fun _ _ _ hmem he => Reservation.load_all_diag hmem he,
    fun _ _ _ hmem he => hotel_load_all_error hmem he,
    fun _ _ _ hmem he => customer_load_all_error hmem he⟩

/-- Witness for the amended C3 at a concrete reservations document:
one invalid record plus one valid record load as exactly the valid one,
with a diagnostic naming the invalid record's id. -/
theorem C3_load_all_skip_amended_witness :
    (Reservation.load_all [badResRecord, goodResRecord]).1 =
      [⟨"R901", "H001", "C001", 1, ⟨2024, 1, 1⟩, ⟨2024, 1, 2⟩, "ACTIVE"⟩] ∧
    skipDiag badResRecord "check_in debe ser anterior a check_out" ∈
      (Reservation.load_all [badResRecord, goodResRecord]).2 := by
  constructor
  · rw [C3_load_all_skip_amended.1 [badResRecord, goodResRecord]]
    rfl
  · exact C3_load_all_skip_amended.2.1 [badResRecord, goodResRecord]
      badResRecord "check_in debe ser anterior a check_out"
      (List.mem_cons_self _ _) rfl

/-- A valid ACTIVE reservation whose id happens to be R102. -/
def r102res : Reservation :=
  ⟨"R102", "H001", "C001", 1, ⟨2024, 1, 1⟩, ⟨2024, 1, 2⟩, "ACTIVE"⟩

/-- A valid ACTIVE reservation with the scheme id R101. -/
def r101res : Reservation :=
  ⟨"R101", "H001", "C001", 1, ⟨2024, 1, 1⟩, ⟨2024, 1, 2⟩, "ACTIVE"⟩

/-- Counterexample to C9: the fresh id is computed from the collection
length only, so it is not unique in every loaded collection — a
one-element collection whose single (constructible) reservation already
carries id R102 receives R102 again as the fresh id. -/
theorem C9_fresh_id_counterexample :
    mkReservation "R102" "H001" "C001" 1 (.str "2024-01-01")
      (.str "2024-01-02") "ACTIVE" = .ok r102res ∧
    freshReservationId [r102res] = "R102" ∧
    r102res.id = freshReservationId [r102res] := by
  refine ⟨rfl, ?_, ?_⟩
  · decide
  · decide

/-- C9 amended: the fresh id is `R` followed by `100 + n + 1` in
decimal, where `n` is the loaded collection's length; it is unique
within the collection whenever the existing ids follow the scheme
`R101 … R(100+n)` (as they do for collections produced solely by
successive creations), but not for arbitrary loaded collections. -/
theorem C9_fresh_id_amended (reservations : List Reservation)
    (hscheme : ∀ r ∈ reservations, ∃ k, 1 ≤ k ∧ k ≤ reservations.length ∧
      r.id = String.mk ('R' :: natDigits (100 + k))) :
    ∀ r ∈ reservations, r.id ≠ freshReservationId reservations := by
  intro r hr heq
  obtain ⟨k, hk1, hk2, hid⟩ := hscheme r hr
  rw [freshReservationId, hid] at heq
  have hdata : 'R' :: natDigits (100 + k) =
      'R' :: natDigits (100 + reservations.length + 1) :=
    congrArg String.data heq
  have htail : natDigits (100 + k) =
      natDigits (100 + reservations.length + 1) := by
    injection hdata
  have := natDigits_inj htail
  omega

/-- Witness for the amended C9 at a concrete collection: a one-element
collection following the scheme (id R101) never collides with the fresh
id R102. -/
theorem C9_fresh_id_amended_witness :
    r101res.id ≠ freshReservationId [r101res] := by
  refine C9_fresh_id_amended [r101res] ?_ r101res (List.mem_cons_self _ _)
  intro r hr
  refine ⟨1, le_rfl, by simp, ?_⟩
  have : r = r101res := by simpa using hr
  rw [this]
  decide

example : natDigits 102 = ['1', '0', '2'] := by decide
example : parseDate "2024-01-02" = some ⟨2024, 1, 2⟩ := by decide
example : parseDate "2024-1-2" = some ⟨2024, 1, 2⟩ := by decide
example : parseDate "2024-13-02" = none := by decide
example : parseDate "24-01-02" = none := by decide
example : parseDate "2024-02-30" = none := by decide
example : isoformat ⟨2024, 1, 2⟩ = "2024-01-02" := by decide
example : pyStrip "  hi \n" = "hi" := by decide
example : pyStrip " \n " = "" := by decide
